import Mathlib

/-!
Shallow embedding of the fighting-game simulation core of
`src/frontend_react_game/src/App.js`, with theorems checking the
natural-language specification's claims against it.

JS numbers are modelled as exact rationals (`ℚ`); every constant in the
source is a small decimal literal, so the arithmetic the claims depend on
(clamping, comparisons, `Math.ceil` of `base * 0.35`) is identical in `ℚ`.
The per-frame mutation sequence of `controlPlayer` is split into named
phases applied in the source's statement order; `controlAI`'s shared
pressed-key map is threaded explicitly as a function `Key → Bool`.
-/

namespace FightingArena

/-! ### Game constants (App.js lines 18-31) -/

def ARENA_WIDTH : ℚ := 960
def FLOOR_Y : ℚ := 320
def GRAVITY : ℚ := 7/10
def FRICTION : ℚ := 85/100
def MAX_SPEED : ℚ := 5
def JUMP_VELOCITY : ℚ := -12
def ATTACK_COOLDOWN : ℚ := 350
def HEAVY_COOLDOWN : ℚ := 700
def SPECIAL_COOLDOWN : ℚ := 2200
def BLOCK_REDUCTION : ℚ := 65/100
def ROUND_TIME : ℚ := 60
def WIN_ROUNDS : Nat := 2

/-! ### Data model -/

inductive AttackType where
  | light
  | heavy
  | special
deriving DecidableEq

structure Cooldowns where
  light : ℚ
  heavy : ℚ
  special : ℚ
deriving DecidableEq

/-- One fighter, mirroring the object built by `createFighter` (App.js 84-110). -/
structure Fighter where
  x : ℚ
  y : ℚ
  vx : ℚ
  vy : ℚ
  width : ℚ
  height : ℚ
  facing : Int
  palette : String
  onGround : Bool
  attacking : Bool
  attackType : Option AttackType
  attackTimer : ℚ
  block : Bool
  canAct : Bool
  hp : ℚ
  rounds : Nat
  cooldowns : Cooldowns
  hitflash : ℚ
  blockflash : ℚ
deriving DecidableEq

/-- `createFighter(x, facing, palette)` (App.js 84-110). -/
def createFighter (x : ℚ) (facing : Int) (palette : String) : Fighter :=
  { x := x, y := FLOOR_Y, vx := 0, vy := 0, width := 48, height := 78,
    facing := facing, palette := palette, onGround := true,
    attacking := false, attackType := none, attackTimer := 0,
    block := false, canAct := true, hp := 100, rounds := 0,
    cooldowns := { light := 0, heavy := 0, special := 0 },
    hitflash := 0, blockflash := 0 }

/-- `clamp(v, min, max) = Math.max(min, Math.min(max, v))` (App.js 121-123). -/
def clamp (v lo hi : ℚ) : ℚ := max lo (min hi v)

/-! ### Pressed-key state

The DOM `keysRef.current` object maps key names to booleans.  The keys the
game reads are the fourteen bound controls; `other` stands for any other
key the user may have pressed. -/

inductive Key where
  | keyA | keyD | keyW | keyS | keyJ | keyK | keyU
  | arrowLeft | arrowRight | arrowUp | arrowDown
  | numpad1 | numpad2 | numpad3
  | other : Nat → Key
deriving DecidableEq

structure ControlScheme where
  left : Key
  right : Key
  up : Key
  down : Key
  light : Key
  heavy : Key
  special : Key

/-- `CONTROLS.p1` (App.js 34-43). -/
def CONTROLS_p1 : ControlScheme :=
  { left := .keyA, right := .keyD, up := .keyW, down := .keyS,
    light := .keyJ, heavy := .keyK, special := .keyU }

/-- `CONTROLS.p2` (App.js 44-52). -/
def CONTROLS_p2 : ControlScheme :=
  { left := .arrowLeft, right := .arrowRight, up := .arrowUp, down := .arrowDown,
    light := .numpad1, heavy := .numpad2, special := .numpad3 }

/-! ### controlPlayer, split into the source's statement-order phases
(App.js 349-427) -/

/-- `nx.block = down` (App.js 358). -/
def blockPhase (k : Key → Bool) (c : ControlScheme) (f : Fighter) : Fighter :=
  { f with block := k c.down }

/-- Horizontal movement: accelerate / friction-decay `vx` (App.js 361-369). -/
def movePhase (k : Key → Bool) (c : ControlScheme) (f : Fighter) : Fighter :=
  let left := k c.left
  let right := k c.right
  if left && !right then
    { f with vx := clamp (f.vx - 8/10) (-MAX_SPEED) MAX_SPEED }
  else if right && !left then
    { f with vx := clamp (f.vx + 8/10) (-MAX_SPEED) MAX_SPEED }
  else
    let v := f.vx * FRICTION
    { f with vx := if |v| < 8/100 then 0 else v }

/-- Jump when grounded (App.js 372-375). -/
def jumpPhase (k : Key → Bool) (c : ControlScheme) (f : Fighter) : Fighter :=
  if k c.up && f.onGround then
    { f with vy := JUMP_VELOCITY, onGround := false }
  else f

/-- Attack initiation (App.js 377-403): evaluated only when
`!attacking && !block && canAct`, tried special, then heavy, then light;
the chosen type sets `attacking`, `attackType`, `attackTimer` and pushes
its cooldown to `now + cooldown`. -/
def attackPhase (k : Key → Bool) (c : ControlScheme) (f : Fighter) (now : ℚ) : Fighter :=
  if f.attacking = false ∧ f.block = false ∧ f.canAct = true then
    if k c.special ∧ now ≥ f.cooldowns.special then
      { f with attacking := true, attackType := some .special, attackTimer := 240,
               cooldowns := { f.cooldowns with special := now + SPECIAL_COOLDOWN } }
    else if k c.heavy ∧ now ≥ f.cooldowns.heavy then
      { f with attacking := true, attackType := some .heavy, attackTimer := 180,
               cooldowns := { f.cooldowns with heavy := now + HEAVY_COOLDOWN } }
    else if k c.light ∧ now ≥ f.cooldowns.light then
      { f with attacking := true, attackType := some .light, attackTimer := 120,
               cooldowns := { f.cooldowns with light := now + ATTACK_COOLDOWN } }
    else f
  else f

/-- Physics integration (App.js 405-414): gravity, clamped `x += vx`,
`y += vy`, floor snap. -/
def integratePhase (f : Fighter) : Fighter :=
  let f1 := { f with vy := f.vy + GRAVITY }
  let f2 := { f1 with x := clamp (f1.x + f1.vx) 24 (ARENA_WIDTH - 24),
                      y := f1.y + f1.vy }
  if f2.y ≥ FLOOR_Y then { f2 with y := FLOOR_Y, vy := 0, onGround := true }
  else f2

/-- Flash-timer decay (App.js 417-418): `hitflash`/`blockflash` decrement
while positive. -/
def flashPhase (f : Fighter) (delta : ℚ) : Fighter :=
  let f1 := if f.hitflash > 0 then { f with hitflash := f.hitflash - delta } else f
  if f1.blockflash > 0 then { f1 with blockflash := f1.blockflash - delta } else f1

/-- Attack-timer decay (App.js 419-425): if attacking, `attackTimer -= delta`
and the attack ends when it reaches `≤ 0`. -/
def attackDecayPhase (f : Fighter) (delta : ℚ) : Fighter :=
  if f.attacking then
    let t := f.attackTimer - delta
    if t ≤ 0 then { f with attackTimer := t, attacking := false, attackType := none }
    else { f with attackTimer := t }
  else f

/-- Animation-timer decay (App.js 416-425). -/
def timersPhase (f : Fighter) (delta : ℚ) : Fighter :=
  attackDecayPhase (flashPhase f delta) delta

/-- `controlPlayer(f, control, now)` (App.js 349-427), reading the pressed-key
snapshot `k` and the frame's `delta`. -/
def controlPlayer (k : Key → Bool) (f : Fighter) (c : ControlScheme)
    (now delta : ℚ) : Fighter :=
  timersPhase
    (integratePhase
      (attackPhase k c (jumpPhase k c (movePhase k c (blockPhase k c f))) now))
    delta

/-! ### Combat resolution (App.js 112-142, 502-551) -/

structure Rect where
  x : ℚ
  y : ℚ
  width : ℚ
  height : ℚ

/-- `rectsOverlap(a, b)` (App.js 112-119). -/
def rectsOverlap (a b : Rect) : Bool :=
  !(decide (a.x + a.width < b.x) || decide (a.x > b.x + b.width) ||
    decide (a.y < b.y - b.height) || decide (a.y - a.height > b.y))

/-- `getAttackHitbox(f, type)` (App.js 125-134). -/
def getAttackHitbox (f : Fighter) (t : AttackType) : Rect :=
  let reach : ℚ := match t with
    | .heavy => 56
    | .light => 42
    | .special => 68
  { x := if f.facing = 1 then f.x + f.width else f.x - reach,
    y := f.y - f.height / 2,
    width := reach,
    height := 24 }

/-- `resolveFacing(p1, p2)` (App.js 136-142). -/
def resolveFacing (p1 p2 : Fighter) : Fighter × Fighter :=
  let leftIsP1 := p1.x < p2.x
  ({ p1 with facing := if leftIsP1 then 1 else -1 },
   { p2 with facing := if leftIsP1 then -1 else 1 })

/-- Base damage per attack type: `light 6, heavy 12, special 18` (App.js 521). -/
def baseDamage : AttackType → ℚ
  | .light => 6
  | .heavy => 12
  | .special => 18

/-- Knockback per attack type (App.js 528). -/
def knockback : AttackType → ℚ
  | .heavy => 32/10
  | .special => 4
  | .light => 22/10

/-- Blocked damage: `Math.ceil(baseDmg * (1 - BLOCK_REDUCTION))` (App.js 522). -/
def blockedDamage (t : AttackType) : ℚ :=
  ((⌈baseDamage t * (1 - BLOCK_REDUCTION)⌉ : ℤ) : ℚ)

/-- `handleHit(attacker, defender)` (App.js 502-533). -/
def handleHit (attacker defender : Fighter) : Fighter :=
  if attacker.attacking = false then defender
  else
    match attacker.attackType with
    | none => defender
    | some t =>
      if attacker.attackTimer ≤ 40 then defender
      else
        let hitbox := getAttackHitbox attacker t
        let hurtbox : Rect :=
          { x := defender.x - defender.width / 2, y := defender.y,
            width := defender.width, height := defender.height }
        if rectsOverlap hitbox
            { x := hurtbox.x, y := hurtbox.y - hurtbox.height,
              width := hurtbox.width, height := hurtbox.height } = true then
          let dmg : ℚ := if defender.block = true then blockedDamage t else baseDamage t
          let nd := { defender with hp := clamp (defender.hp - dmg) 0 100 }
          let nd2 := if defender.block = true then { nd with blockflash := 160 }
                     else { nd with hitflash := 160 }
          { nd2 with vx := nd2.vx + knockback t * (if attacker.facing = 1 then 1 else -1) }
        else defender

/-- The `overlapX` amount of App.js 540-541. -/
def overlapAmount (np1 np2 : Fighter) : ℚ :=
  if |np1.x - np2.x| < (np1.width + np2.width) / 2 then
    (np1.width + np2.width) / 2 - |np1.x - np2.x|
  else 0

/-- Overlap separation (App.js 539-551): push overlapping fighters apart and
re-clamp to arena bounds. -/
def separate (np1 np2 : Fighter) : Fighter × Fighter :=
  if overlapAmount np1 np2 > 0 then
    let push := overlapAmount np1 np2 / 2 + 1/10
    if np1.x < np2.x then
      ({ np1 with x := clamp (np1.x - push) 24 (ARENA_WIDTH - 24) },
       { np2 with x := clamp (np2.x + push) 24 (ARENA_WIDTH - 24) })
    else
      ({ np1 with x := clamp (np1.x + push) 24 (ARENA_WIDTH - 24) },
       { np2 with x := clamp (np2.x - push) 24 (ARENA_WIDTH - 24) })
  else (np1, np2)

/-- Post-control portion of a tick (App.js 498-551): facing correction,
both-direction hit resolution (the second direction uses the already-hit
`np2` as attacker, as in the source), then overlap separation. -/
def resolveCombat (p1 p2 : Fighter) : Fighter × Fighter :=
  let pair := resolveFacing p1 p2
  let np2 := handleHit pair.1 pair.2
  let np1 := handleHit np2 pair.1
  separate np1 np2

/-- One full PvP tick of the two fighters (App.js 494-551). -/
def tickPvP (k : Key → Bool) (p1 p2 : Fighter) (now delta : ℚ) : Fighter × Fighter :=
  resolveCombat (controlPlayer k p1 CONTROLS_p1 now delta)
    (controlPlayer k p2 CONTROLS_p2 now delta)

/-! ### AI controller (App.js 430-492) -/

structure Difficulty where
  reactionLo : ℚ
  reactionHi : ℚ
  blockChance : ℚ
  specialChance : ℚ
  aggression : ℚ

def DIFFICULTY_Easy : Difficulty :=
  { reactionLo := 500, reactionHi := 900, blockChance := 25/100,
    specialChance := 1/10, aggression := 3/10 }

def DIFFICULTY_Normal : Difficulty :=
  { reactionLo := 350, reactionHi := 650, blockChance := 45/100,
    specialChance := 2/10, aggression := 55/100 }

def DIFFICULTY_Hard : Difficulty :=
  { reactionLo := 220, reactionHi := 420, blockChance := 65/100,
    specialChance := 35/100, aggression := 75/100 }

/-- The values drawn from `Math.random()` during one `controlAI` call, made
explicit so the controller is a deterministic function of its inputs. -/
structure AIRands where
  advance : ℚ
  blockDraw : ℚ
  jump : ℚ
  react : ℚ
  lightDraw : ℚ
  heavyDraw : ℚ
  specialDraw : ℚ

/-- `controlAI(f, enemy, now)` (App.js 430-492).  Returns the controlled
fighter together with the pressed-key map left behind in `keysRef.current`.
The source builds `synth` as a copy of the current key map with the seven
Player-2 control entries recomputed, then assigns
`keysRef.current = { ...keysRef.current, ...synth }` (which equals `synth`,
a full copy) — nothing restores the previous map afterwards.  The final
`controlPlayer` call reads the closure variable `k` captured before that
assignment, i.e. the pre-overlay map. -/
def controlAI (k : Key → Bool) (f enemy : Fighter) (now delta : ℚ)
    (cfg : Difficulty) (r : AIRands) : Fighter × (Key → Bool) :=
  let dist := |enemy.x - f.x|
  let towardEnemy : Bool := decide (enemy.x > f.x)
  let shouldAdvance : Bool := decide (r.advance < cfg.aggression)
  let shouldBlock : Bool := decide (r.blockDraw < cfg.blockChance) && enemy.attacking
  let canAct : Bool := decide (now ≥ f.cooldowns.light) && decide (now ≥ f.cooldowns.heavy)
      && decide (now ≥ f.cooldowns.special) && !f.attacking
  -- movement intents (App.js 453-462): keep mid distance between 72 and 120
  let sLeft : Bool :=
    if decide (dist > 120) && shouldAdvance then !towardEnemy
    else if decide (dist < 72) then towardEnemy
    else false
  let sRight : Bool :=
    if decide (dist > 120) && shouldAdvance then towardEnemy
    else if decide (dist < 72) then !towardEnemy
    else false
  -- occasional airborne jump (App.js 465-467)
  let sUp : Bool := !f.onGround && decide (r.jump < 2/100)
  -- block if enemy attacking and close (App.js 470-472)
  let sDown : Bool := shouldBlock && decide (dist < 100)
  -- attack probability gates (App.js 475-486); `reactIn` is computed in the
  -- source from `r.react` and never used
  let tryLight : Bool := decide (dist < 60) && decide (r.lightDraw < 6/10)
  let tryHeavy : Bool := decide (dist < 80) && decide (r.heavyDraw < 4/10)
  let trySpecial : Bool := decide (dist < 110) && decide (r.specialDraw < cfg.specialChance)
  let sLight : Bool := canAct && tryLight
  let sHeavy : Bool := canAct && (!tryLight && tryHeavy)
  let sSpecial : Bool := canAct && (!tryLight && !tryHeavy && trySpecial)
  -- `keysRef.current = { ...keysRef.current, ...synth }` (App.js 489)
  let merged : Key → Bool := fun key =>
    if key = CONTROLS_p2.left then sLeft
    else if key = CONTROLS_p2.right then sRight
    else if key = CONTROLS_p2.up then sUp
    else if key = CONTROLS_p2.down then sDown
    else if key = CONTROLS_p2.light then sLight
    else if key = CONTROLS_p2.heavy then sHeavy
    else if key = CONTROLS_p2.special then sSpecial
    else k key
  (controlPlayer k f CONTROLS_p2 now delta, merged)

/-- One full PvAI tick (App.js 494-551 with `mode === "PvAI"`): Player 1 by
`controlPlayer`, Player 2 by `controlAI`; the pair goes through the same
combat resolution and the key map left by `controlAI` survives the tick. -/
def tickPvAI (k : Key → Bool) (p1 p2 : Fighter) (now delta : ℚ)
    (cfg : Difficulty) (r : AIRands) : (Fighter × Fighter) × (Key → Bool) :=
  let np1 := controlPlayer k p1 CONTROLS_p1 now delta
  let ai := controlAI k p2 p1 now delta cfg r
  (resolveCombat np1 ai.1, ai.2)

/-! ### Round controller (App.js 326-343, 556-608) -/

inductive Side where
  | one
  | two
deriving DecidableEq

structure GameState where
  p1 : Fighter
  p2 : Fighter
  timer : ℚ
  paused : Bool
  roundOver : Bool
  winnerRound : Option Side
  matchWinner : Option Side
deriving DecidableEq

/-- Round-timer countdown at frame start (App.js 329-343): no-op while
paused / round over / match over; otherwise, when `delta > 0`, decrement the
timer by `delta/1000` and on reaching `≤ 0` decide the round by hp
(exact tie gives no winner) and end it. -/
def countdown (s : GameState) (delta : ℚ) : GameState :=
  if s.paused || s.roundOver || s.matchWinner.isSome then s
  else if delta > 0 then
    let next := s.timer - delta / 1000
    if next ≤ 0 then
      let w : Option Side :=
        if s.p1.hp = s.p2.hp then none
        else if s.p1.hp > s.p2.hp then some .one
        else some .two
      { s with timer := 0, winnerRound := w, roundOver := true }
    else { s with timer := next }
  else s

/-- KO check after the tick's state writes (App.js 556-560): Player 1's hp
is examined first. -/
def koCheck (np1 np2 : Fighter) (s : GameState) : GameState :=
  if np1.hp ≤ 0 ∨ np2.hp ≤ 0 then
    { s with winnerRound := some (if np1.hp ≤ 0 then Side.two else Side.one),
             roundOver := true }
  else s

/-- `checkChampion` (App.js 571-575). -/
def checkChampion (r1 r2 : Nat) : Option Side :=
  if r1 ≥ WIN_ROUNDS then some .one
  else if r2 ≥ WIN_ROUNDS then some .two
  else none

/-- `nextRound` (App.js 566-599), with React's updater-function sequencing
made explicit.  Synchronously the winner's fighter gets `rounds + 1`; the
deferred (`setTimeout`) block then replaces Player 1 by a fresh fighter
(whose `rounds` is 0), rebuilds Player 2 with `rounds + 1` again when
Player 2 was the winner, applies the no-op second Player 1 update
(both branches of line 586 return `prev.rounds`), resets the timer and
round flags, and computes the champion from the pre-call round counts
captured by the closure. -/
def nextRound (s : GameState) : GameState :=
  let wr := s.winnerRound
  -- synchronous updates (App.js 568-569); the Player-1 one is overwritten
  -- wholesale by the deferred fresh fighter below, so its increment is lost
  let _p1a := if wr = some Side.one then { s.p1 with rounds := s.p1.rounds + 1 } else s.p1
  let p2a := if wr = some Side.two then { s.p2 with rounds := s.p2.rounds + 1 } else s.p2
  -- deferred updates (App.js 577-597)
  let p1b := createFighter (ARENA_WIDTH * (25/100)) 1 "blue"
  let p2b :=
    let rounds := if wr = some Side.two then p2a.rounds + 1 else p2a.rounds
    { createFighter (ARENA_WIDTH * (75/100)) (-1) "amber" with rounds := rounds }
  let p1c := { p1b with rounds := if wr = some Side.one then p1b.rounds else p1b.rounds }
  let r1 := if wr = some Side.one then s.p1.rounds + 1 else s.p1.rounds
  let r2 := if wr = some Side.two then s.p2.rounds + 1 else s.p2.rounds
  { s with p1 := p1c, p2 := p2b, timer := ROUND_TIME, roundOver := false,
           winnerRound := none, matchWinner := checkChampion r1 r2 }

/-- `resetMatch` (App.js 601-608). -/
def resetMatch (s : GameState) : GameState :=
  { s with p1 := createFighter (ARENA_WIDTH * (25/100)) 1 "blue",
           p2 := createFighter (ARENA_WIDTH * (75/100)) (-1) "amber",
           timer := ROUND_TIME, roundOver := false,
           winnerRound := none, matchWinner := none }

/-- `Cooldowns` accessor by attack type, for stating cooldown properties
uniformly. -/
def Cooldowns.get (cd : Cooldowns) : AttackType → ℚ
  | .light => cd.light
  | .heavy => cd.heavy
  | .special => cd.special

/-! ### Concrete inputs used by witnesses and counterexamples -/

/-- Player 1's initial state (App.js 298). -/
def p1Start : Fighter := createFighter (ARENA_WIDTH * (25/100)) 1 "blue"

/-- Player 2's initial state (App.js 299). -/
def p2Start : Fighter := createFighter (ARENA_WIDTH * (75/100)) (-1) "amber"

/-- No key pressed. -/
def noKeys : Key → Bool := fun _ => false

/-- Only Player 1's block key (S) pressed. -/
def blockKeys : Key → Bool := fun key => decide (key = Key.keyS)

/-- Only Player 1's special key (U) pressed. -/
def specialKeys : Key → Bool := fun key => decide (key = Key.keyU)

/-- A fighter mid-attack (light attack with 100 ms left on its timer). -/
def midAttackFighter : Fighter :=
  { p1Start with attacking := true, attackType := some AttackType.light,
                 attackTimer := 100 }

/-- An airborne attacker positioned so its light-attack hitbox meets the
defender's (double-shifted) hurtbox. -/
def c5Attacker : Fighter :=
  { p1Start with x := 400, y := 250, attacking := true,
                 attackType := some AttackType.light, attackTimer := 120 }

def c5Defender : Fighter := { p2Start with x := 470 }

def c5BlockingDefender : Fighter := { c5Defender with block := true }

/-- A quiescent mid-round game state. -/
def idleState : GameState :=
  { p1 := p1Start, p2 := p2Start, timer := 1/100, paused := false,
    roundOver := false, winnerRound := none, matchWinner := none }

/-- A round-over state awaiting the continue action, with winner `w`. -/
def roundOverState (w : Option Side) : GameState :=
  { p1 := p1Start, p2 := p2Start, timer := 0, paused := false,
    roundOver := true, winnerRound := w, matchWinner := none }

/-- A KO'd fighter. -/
def koFighter : Fighter := { p1Start with hp := 0 }

/-- Fighters standing 20 px apart (closer than the AI's near threshold 72),
with Player 2 on the right. -/
def c6P1 : Fighter := { p1Start with x := 480 }

def c6P2 : Fighter := { p2Start with x := 500 }

/-- Random draws that make every probability gate fail. -/
def c6Rands : AIRands :=
  { advance := 1, blockDraw := 1, jump := 1, react := 0,
    lightDraw := 1, heavyDraw := 1, specialDraw := 1 }

/-! ### Helper lemmas: clamp bounds -/

theorem clamp_lower (v lo hi : ℚ) : lo ≤ clamp v lo hi :=
  le_max_left _ _

theorem clamp_upper (v lo hi : ℚ) (h : lo ≤ hi) : clamp v lo hi ≤ hi :=
  max_le h (min_le_left _ _)

/-! ### Helper lemmas: which fields each controlPlayer phase leaves alone -/

theorem blockPhase_hp (k : Key → Bool) (c : ControlScheme) (f : Fighter) :
    (blockPhase k c f).hp = f.hp := rfl

theorem blockPhase_x (k : Key → Bool) (c : ControlScheme) (f : Fighter) :
    (blockPhase k c f).x = f.x := rfl

theorem blockPhase_block (k : Key → Bool) (c : ControlScheme) (f : Fighter) :
    (blockPhase k c f).block = k c.down := rfl

theorem blockPhase_attacking (k : Key → Bool) (c : ControlScheme) (f : Fighter) :
    (blockPhase k c f).attacking = f.attacking := rfl

theorem blockPhase_attackTimer (k : Key → Bool) (c : ControlScheme) (f : Fighter) :
    (blockPhase k c f).attackTimer = f.attackTimer := rfl

theorem movePhase_hp (k : Key → Bool) (c : ControlScheme) (f : Fighter) :
    (movePhase k c f).hp = f.hp := by
  simp only [movePhase]
  repeat' split
  all_goals rfl

theorem movePhase_x (k : Key → Bool) (c : ControlScheme) (f : Fighter) :
    (movePhase k c f).x = f.x := by
  simp only [movePhase]
  repeat' split
  all_goals rfl

theorem movePhase_block (k : Key → Bool) (c : ControlScheme) (f : Fighter) :
    (movePhase k c f).block = f.block := by
  simp only [movePhase]
  repeat' split
  all_goals rfl

theorem movePhase_attacking (k : Key → Bool) (c : ControlScheme) (f : Fighter) :
    (movePhase k c f).attacking = f.attacking := by
  simp only [movePhase]
  repeat' split
  all_goals rfl

theorem movePhase_attackTimer (k : Key → Bool) (c : ControlScheme) (f : Fighter) :
    (movePhase k c f).attackTimer = f.attackTimer := by
  simp only [movePhase]
  repeat' split
  all_goals rfl

theorem jumpPhase_hp (k : Key → Bool) (c : ControlScheme) (f : Fighter) :
    (jumpPhase k c f).hp = f.hp := by
  simp only [jumpPhase]
  split <;> rfl

theorem jumpPhase_x (k : Key → Bool) (c : ControlScheme) (f : Fighter) :
    (jumpPhase k c f).x = f.x := by
  simp only [jumpPhase]
  split <;> rfl

theorem jumpPhase_block (k : Key → Bool) (c : ControlScheme) (f : Fighter) :
    (jumpPhase k c f).block = f.block := by
  simp only [jumpPhase]
  split <;> rfl

theorem jumpPhase_attacking (k : Key → Bool) (c : ControlScheme) (f : Fighter) :
    (jumpPhase k c f).attacking = f.attacking := by
  simp only [jumpPhase]
  split <;> rfl

theorem jumpPhase_attackTimer (k : Key → Bool) (c : ControlScheme) (f : Fighter) :
    (jumpPhase k c f).attackTimer = f.attackTimer := by
  simp only [jumpPhase]
  split <;> rfl

theorem attackPhase_hp (k : Key → Bool) (c : ControlScheme) (f : Fighter) (now : ℚ) :
    (attackPhase k c f now).hp = f.hp := by
  simp only [attackPhase]
  repeat' split
  all_goals rfl

theorem attackPhase_x (k : Key → Bool) (c : ControlScheme) (f : Fighter) (now : ℚ) :
    (attackPhase k c f now).x = f.x := by
  simp only [attackPhase]
  repeat' split
  all_goals rfl

theorem attackPhase_block (k : Key → Bool) (c : ControlScheme) (f : Fighter) (now : ℚ) :
    (attackPhase k c f now).block = f.block := by
  simp only [attackPhase]
  repeat' split
  all_goals rfl

theorem integratePhase_hp (f : Fighter) : (integratePhase f).hp = f.hp := by
  simp only [integratePhase]
  split <;> rfl

theorem integratePhase_block (f : Fighter) : (integratePhase f).block = f.block := by
  simp only [integratePhase]
  split <;> rfl

theorem integratePhase_attacking (f : Fighter) :
    (integratePhase f).attacking = f.attacking := by
  simp only [integratePhase]
  split <;> rfl

theorem integratePhase_attackTimer (f : Fighter) :
    (integratePhase f).attackTimer = f.attackTimer := by
  simp only [integratePhase]
  split <;> rfl

theorem integratePhase_x (f : Fighter) :
    (integratePhase f).x = clamp (f.x + f.vx) 24 (ARENA_WIDTH - 24) := by
  simp only [integratePhase]
  split <;> rfl

theorem flashPhase_hp (f : Fighter) (delta : ℚ) : (flashPhase f delta).hp = f.hp := by
  simp only [flashPhase]
  repeat' split
  all_goals rfl

theorem flashPhase_x (f : Fighter) (delta : ℚ) : (flashPhase f delta).x = f.x := by
  simp only [flashPhase]
  repeat' split
  all_goals rfl

theorem flashPhase_block (f : Fighter) (delta : ℚ) :
    (flashPhase f delta).block = f.block := by
  simp only [flashPhase]
  repeat' split
  all_goals rfl

theorem flashPhase_attacking (f : Fighter) (delta : ℚ) :
    (flashPhase f delta).attacking = f.attacking := by
  simp only [flashPhase]
  repeat' split
  all_goals rfl

theorem flashPhase_attackTimer (f : Fighter) (delta : ℚ) :
    (flashPhase f delta).attackTimer = f.attackTimer := by
  simp only [flashPhase]
  repeat' split
  all_goals rfl

theorem attackDecayPhase_hp (f : Fighter) (delta : ℚ) :
    (attackDecayPhase f delta).hp = f.hp := by
  simp only [attackDecayPhase]
  repeat' split
  all_goals rfl

theorem attackDecayPhase_x (f : Fighter) (delta : ℚ) :
    (attackDecayPhase f delta).x = f.x := by
  simp only [attackDecayPhase]
  repeat' split
  all_goals rfl

theorem attackDecayPhase_block (f : Fighter) (delta : ℚ) :
    (attackDecayPhase f delta).block = f.block := by
  simp only [attackDecayPhase]
  repeat' split
  all_goals rfl

theorem timersPhase_hp (f : Fighter) (delta : ℚ) :
    (timersPhase f delta).hp = f.hp := by
  simp only [timersPhase, attackDecayPhase_hp, flashPhase_hp]

theorem timersPhase_x (f : Fighter) (delta : ℚ) :
    (timersPhase f delta).x = f.x := by
  simp only [timersPhase, attackDecayPhase_x, flashPhase_x]

theorem timersPhase_block (f : Fighter) (delta : ℚ) :
    (timersPhase f delta).block = f.block := by
  simp only [timersPhase, attackDecayPhase_block, flashPhase_block]

/-! ### Helper lemmas: attackPhase and timersPhase behavior -/

theorem attackPhase_of_guard_failed (k : Key → Bool) (c : ControlScheme) (f : Fighter)
    (now : ℚ) (h : ¬(f.attacking = false ∧ f.block = false ∧ f.canAct = true)) :
    attackPhase k c f now = f := by
  simp only [attackPhase, if_neg h]

theorem attackPhase_attacking_of_block (k : Key → Bool) (c : ControlScheme) (f : Fighter)
    (now : ℚ) (hb : f.block = true) :
    (attackPhase k c f now).attacking = f.attacking := by
  rw [attackPhase_of_guard_failed]
  simp [hb]

/-- Either the phase leaves the attack state alone, or it initiates an attack
with a positive timer. -/
theorem attackPhase_attack_state (k : Key → Bool) (c : ControlScheme) (f : Fighter)
    (now : ℚ) :
    ((attackPhase k c f now).attacking = f.attacking ∧
      (attackPhase k c f now).attackTimer = f.attackTimer) ∨
    ((attackPhase k c f now).attacking = true ∧
      (attackPhase k c f now).attackTimer > 0) := by
  simp only [attackPhase]
  repeat' split
  · exact Or.inr ⟨rfl, by norm_num⟩
  · exact Or.inr ⟨rfl, by norm_num⟩
  · exact Or.inr ⟨rfl, by norm_num⟩
  · exact Or.inl ⟨rfl, rfl⟩
  · exact Or.inl ⟨rfl, rfl⟩

theorem attackDecayPhase_attacking_of_false (f : Fighter) (delta : ℚ)
    (h : f.attacking = false) : attackDecayPhase f delta = f := by
  simp only [attackDecayPhase, h]
  simp

theorem attackDecayPhase_eq_end (f : Fighter) (delta : ℚ) (ha : f.attacking = true)
    (ht : f.attackTimer - delta ≤ 0) :
    attackDecayPhase f delta =
      { f with attackTimer := f.attackTimer - delta, attacking := false,
               attackType := none } := by
  simp [attackDecayPhase, ha, ht]

theorem attackDecayPhase_eq_cont (f : Fighter) (delta : ℚ) (ha : f.attacking = true)
    (ht : ¬ f.attackTimer - delta ≤ 0) :
    attackDecayPhase f delta = { f with attackTimer := f.attackTimer - delta } := by
  simp [attackDecayPhase, ha, ht]

/-- Whatever the input, a fighter the decay phase leaves attacking has a
strictly positive attack timer. -/
theorem attackDecayPhase_safety (f : Fighter) (delta : ℚ)
    (h : (attackDecayPhase f delta).attacking = true) :
    (attackDecayPhase f delta).attackTimer > 0 := by
  by_cases ha : f.attacking = true
  · by_cases ht : f.attackTimer - delta ≤ 0
    · rw [attackDecayPhase_eq_end f delta ha ht] at h
      simp at h
    · rw [attackDecayPhase_eq_cont f delta ha ht] at h ⊢
      push_neg at ht
      simpa using ht
  · rw [attackDecayPhase_attacking_of_false f delta (by simpa using ha)] at h
    exact absurd h ha

/-- The decay phase preserves the invariant `attackTimer > 0 ↔ attacking`. -/
theorem attackDecayPhase_inv (f : Fighter) (delta : ℚ)
    (h : f.attackTimer > 0 ↔ f.attacking = true) :
    (attackDecayPhase f delta).attackTimer > 0 ↔
      (attackDecayPhase f delta).attacking = true := by
  by_cases ha : f.attacking = true
  · by_cases ht : f.attackTimer - delta ≤ 0
    · rw [attackDecayPhase_eq_end f delta ha ht]
      simpa using ht
    · rw [attackDecayPhase_eq_cont f delta ha ht]
      push_neg at ht
      simp [ha]
      linarith
  · have ha' : f.attacking = false := by simpa using ha
    rw [attackDecayPhase_attacking_of_false f delta ha']
    exact h

theorem timersPhase_attacking_of_false (f : Fighter) (delta : ℚ)
    (h : f.attacking = false) : (timersPhase f delta).attacking = false := by
  simp only [timersPhase]
  rw [attackDecayPhase_attacking_of_false _ _ (by rw [flashPhase_attacking]; exact h)]
  rw [flashPhase_attacking]
  exact h

/-- Whatever the input, a fighter the timer phase leaves attacking has a
strictly positive attack timer. -/
theorem timersPhase_safety (f : Fighter) (delta : ℚ)
    (h : (timersPhase f delta).attacking = true) :
    (timersPhase f delta).attackTimer > 0 :=
  attackDecayPhase_safety _ _ h

/-- The timer phase preserves the invariant `attackTimer > 0 ↔ attacking`. -/
theorem timersPhase_inv (f : Fighter) (delta : ℚ)
    (h : f.attackTimer > 0 ↔ f.attacking = true) :
    (timersPhase f delta).attackTimer > 0 ↔ (timersPhase f delta).attacking = true := by
  refine attackDecayPhase_inv _ _ ?_
  rw [flashPhase_attacking, flashPhase_attackTimer]
  exact h

/-! ### Helper lemmas: controlPlayer composites -/

theorem controlPlayer_hp (k : Key → Bool) (f : Fighter) (c : ControlScheme)
    (now delta : ℚ) : (controlPlayer k f c now delta).hp = f.hp := by
  simp only [controlPlayer, timersPhase_hp, integratePhase_hp, attackPhase_hp,
    jumpPhase_hp, movePhase_hp, blockPhase_hp]

theorem controlPlayer_x_bounds (k : Key → Bool) (f : Fighter) (c : ControlScheme)
    (now delta : ℚ) :
    24 ≤ (controlPlayer k f c now delta).x ∧
      (controlPlayer k f c now delta).x ≤ ARENA_WIDTH - 24 := by
  simp only [controlPlayer, timersPhase_x, integratePhase_x]
  exact ⟨clamp_lower _ _ _, clamp_upper _ _ _ (by norm_num [ARENA_WIDTH])⟩

theorem controlPlayer_block (k : Key → Bool) (f : Fighter) (c : ControlScheme)
    (now delta : ℚ) : (controlPlayer k f c now delta).block = k c.down := by
  simp only [controlPlayer, timersPhase_block, integratePhase_block, attackPhase_block,
    jumpPhase_block, movePhase_block, blockPhase_block]

/-! ### Helper lemmas: combat resolution -/

theorem resolveFacing_fst_hp (p1 p2 : Fighter) : (resolveFacing p1 p2).1.hp = p1.hp := rfl

theorem resolveFacing_snd_hp (p1 p2 : Fighter) : (resolveFacing p1 p2).2.hp = p2.hp := rfl

theorem resolveFacing_fst_x (p1 p2 : Fighter) : (resolveFacing p1 p2).1.x = p1.x := rfl

theorem resolveFacing_snd_x (p1 p2 : Fighter) : (resolveFacing p1 p2).2.x = p2.x := rfl

theorem handleHit_x (a d : Fighter) : (handleHit a d).x = d.x := by
  simp only [handleHit]
  repeat' split
  all_goals rfl

theorem handleHit_hp (a d : Fighter) :
    (handleHit a d).hp = d.hp ∨
      (0 ≤ (handleHit a d).hp ∧ (handleHit a d).hp ≤ 100) := by
  simp only [handleHit]
  repeat' split
  all_goals
    first
    | exact Or.inl rfl
    | exact Or.inr ⟨clamp_lower _ _ _, clamp_upper _ _ _ (by norm_num)⟩

theorem handleHit_hp_bounds (a d : Fighter) (h : 0 ≤ d.hp ∧ d.hp ≤ 100) :
    0 ≤ (handleHit a d).hp ∧ (handleHit a d).hp ≤ 100 := by
  rcases handleHit_hp a d with he | hb
  · rw [he]
    exact h
  · exact hb

theorem separate_cases (a b : Fighter) :
    ((separate a b).1.x = a.x ∨
      (24 ≤ (separate a b).1.x ∧ (separate a b).1.x ≤ ARENA_WIDTH - 24)) ∧
    ((separate a b).2.x = b.x ∨
      (24 ≤ (separate a b).2.x ∧ (separate a b).2.x ≤ ARENA_WIDTH - 24)) ∧
    (separate a b).1.hp = a.hp ∧ (separate a b).2.hp = b.hp := by
  have h936 : (24 : ℚ) ≤ ARENA_WIDTH - 24 := by norm_num [ARENA_WIDTH]
  simp only [separate]
  split
  · split
    · exact ⟨Or.inr ⟨clamp_lower _ _ _, clamp_upper _ _ _ h936⟩,
        Or.inr ⟨clamp_lower _ _ _, clamp_upper _ _ _ h936⟩, rfl, rfl⟩
    · exact ⟨Or.inr ⟨clamp_lower _ _ _, clamp_upper _ _ _ h936⟩,
        Or.inr ⟨clamp_lower _ _ _, clamp_upper _ _ _ h936⟩, rfl, rfl⟩
  · exact ⟨Or.inl rfl, Or.inl rfl, rfl, rfl⟩

/-- Combat resolution keeps hp in `[0,100]` and x within the margins whenever
its two inputs satisfy those bounds. -/
theorem resolveCombat_bounds (a b : Fighter)
    (hahp : 0 ≤ a.hp ∧ a.hp ≤ 100) (hbhp : 0 ≤ b.hp ∧ b.hp ≤ 100)
    (hax : 24 ≤ a.x ∧ a.x ≤ ARENA_WIDTH - 24)
    (hbx : 24 ≤ b.x ∧ b.x ≤ ARENA_WIDTH - 24) :
    (0 ≤ (resolveCombat a b).1.hp ∧ (resolveCombat a b).1.hp ≤ 100) ∧
    (0 ≤ (resolveCombat a b).2.hp ∧ (resolveCombat a b).2.hp ≤ 100) ∧
    (24 ≤ (resolveCombat a b).1.x ∧ (resolveCombat a b).1.x ≤ ARENA_WIDTH - 24) ∧
    (24 ≤ (resolveCombat a b).2.x ∧ (resolveCombat a b).2.x ≤ ARENA_WIDTH - 24) := by
  simp only [resolveCombat]
  have hq2hp : 0 ≤ (handleHit (resolveFacing a b).1 (resolveFacing a b).2).hp ∧
      (handleHit (resolveFacing a b).1 (resolveFacing a b).2).hp ≤ 100 := by
    apply handleHit_hp_bounds
    rw [resolveFacing_snd_hp]
    exact hbhp
  have hq1hp : 0 ≤ (handleHit (handleHit (resolveFacing a b).1 (resolveFacing a b).2)
      (resolveFacing a b).1).hp ∧
      (handleHit (handleHit (resolveFacing a b).1 (resolveFacing a b).2)
        (resolveFacing a b).1).hp ≤ 100 := by
    apply handleHit_hp_bounds
    rw [resolveFacing_fst_hp]
    exact hahp
  have hq2x : (handleHit (resolveFacing a b).1 (resolveFacing a b).2).x = b.x := by
    rw [handleHit_x, resolveFacing_snd_x]
  have hq1x : (handleHit (handleHit (resolveFacing a b).1 (resolveFacing a b).2)
      (resolveFacing a b).1).x = a.x := by
    rw [handleHit_x, resolveFacing_fst_x]
  obtain ⟨hs1, hs2, hs1hp, hs2hp⟩ := separate_cases
    (handleHit (handleHit (resolveFacing a b).1 (resolveFacing a b).2) (resolveFacing a b).1)
    (handleHit (resolveFacing a b).1 (resolveFacing a b).2)
  refine ⟨?_, ?_, ?_, ?_⟩
  · rw [hs1hp]
    exact hq1hp
  · rw [hs2hp]
    exact hq2hp
  · rcases hs1 with he | hbnd
    · rw [he, hq1x]
      exact hax
    · exact hbnd
  · rcases hs2 with he | hbnd
    · rw [he, hq2x]
      exact hbx
    · exact hbnd

/-- If a previously non-attacking fighter leaves the initiation phase
attacking with type `t`, then `t`'s cooldown timestamp was `≤ now`. -/
theorem attackPhase_respects_cooldowns (k : Key → Bool) (c : ControlScheme)
    (f : Fighter) (now : ℚ) (t : AttackType) (ha : f.attacking = false)
    (hatt : (attackPhase k c f now).attacking = true)
    (hty : (attackPhase k c f now).attackType = some t) :
    now ≥ f.cooldowns.get t := by
  by_cases hg : f.attacking = false ∧ f.block = false ∧ f.canAct = true
  case neg =>
    rw [attackPhase_of_guard_failed k c f now hg, ha] at hatt
    exact absurd hatt (by simp)
  case pos =>
    simp only [attackPhase, if_pos hg] at hatt hty
    by_cases hs : k c.special = true ∧ now ≥ f.cooldowns.special
    · rw [if_pos hs] at hty
      obtain rfl : AttackType.special = t := by simpa using hty
      exact hs.2
    · rw [if_neg hs] at hatt hty
      by_cases hh : k c.heavy = true ∧ now ≥ f.cooldowns.heavy
      · rw [if_pos hh] at hty
        obtain rfl : AttackType.heavy = t := by simpa using hty
        exact hh.2
      · rw [if_neg hh] at hatt hty
        by_cases hl : k c.light = true ∧ now ≥ f.cooldowns.light
        · rw [if_pos hl] at hty
          obtain rfl : AttackType.light = t := by simpa using hty
          exact hl.2
        · rw [if_neg hl, ha] at hatt
          exact absurd hatt (by simp)

theorem blockedDamage_light : blockedDamage AttackType.light = 3 := by
  have h : ⌈(6:ℚ) * (1 - 65/100)⌉ = (3:ℤ) := by norm_num [Int.ceil_eq_iff]
  simp only [blockedDamage, baseDamage, BLOCK_REDUCTION, h]
  norm_num

theorem blockedDamage_heavy : blockedDamage AttackType.heavy = 5 := by
  have h : ⌈(12:ℚ) * (1 - 65/100)⌉ = (5:ℤ) := by norm_num [Int.ceil_eq_iff]
  simp only [blockedDamage, baseDamage, BLOCK_REDUCTION, h]
  norm_num

theorem blockedDamage_special : blockedDamage AttackType.special = 7 := by
  have h : ⌈(18:ℚ) * (1 - 65/100)⌉ = (7:ℤ) := by norm_num [Int.ceil_eq_iff]
  simp only [blockedDamage, baseDamage, BLOCK_REDUCTION, h]
  norm_num

theorem blockedDamage_le_baseDamage (t : AttackType) :
    blockedDamage t ≤ baseDamage t := by
  cases t
  · rw [blockedDamage_light]
    norm_num [baseDamage]
  · rw [blockedDamage_heavy]
    norm_num [baseDamage]
  · rw [blockedDamage_special]
    norm_num [baseDamage]

/-- A connecting hit on a blocking defender, in closed form. -/
theorem handleHit_connect_blocked (a d : Fighter) (t : AttackType)
    (hatt : a.attacking = true) (hty : a.attackType = some t)
    (htimer : 40 < a.attackTimer)
    (hover : rectsOverlap (getAttackHitbox a t)
      { x := d.x - d.width / 2, y := d.y - d.height,
        width := d.width, height := d.height } = true)
    (hb : d.block = true) :
    handleHit a d =
      { d with hp := clamp (d.hp - blockedDamage t) 0 100, blockflash := 160,
               vx := d.vx + knockback t * (if a.facing = 1 then 1 else -1) } := by
  simp only [handleHit, hty]
  rw [if_neg (by simp [hatt]), if_neg (not_le.mpr htimer)]
  rw [if_pos hover]
  simp [hb]

/-- A connecting hit on a non-blocking defender, in closed form. -/
theorem handleHit_connect_unblocked (a d : Fighter) (t : AttackType)
    (hatt : a.attacking = true) (hty : a.attackType = some t)
    (htimer : 40 < a.attackTimer)
    (hover : rectsOverlap (getAttackHitbox a t)
      { x := d.x - d.width / 2, y := d.y - d.height,
        width := d.width, height := d.height } = true)
    (hb : d.block = false) :
    handleHit a d =
      { d with hp := clamp (d.hp - baseDamage t) 0 100, hitflash := 160,
               vx := d.vx + knockback t * (if a.facing = 1 then 1 else -1) } := by
  simp only [handleHit, hty]
  rw [if_neg (by simp [hatt]), if_neg (not_le.mpr htimer)]
  rw [if_pos hover]
  simp [hb]

/-! ### Claims -/

/-- C1: the claim says the continue action increments the round-winner's
rounds counter by exactly one and preserves both fighters' counts.  The code
violates this: when Player 2 wins, its counter is incremented twice (once
synchronously, once again inside the deferred reset), and Player 1's counter
is wiped to 0 by the fresh-fighter replacement even when Player 1 won the
round — while the champion check simultaneously uses the correct
`old + 1` counts, so the stored state contradicts the code's own
match-winner computation (last conjunct: a state whose `matchWinner` says
Player 1 took 2 rounds while Player 1's stored counter is 0).  The timer
reset and `roundOver`/`winner` clearing parts of the claim do hold. -/
theorem c1_nextRound_failing_input :
    (nextRound (roundOverState (some Side.two))).p2.rounds = 2 ∧
    (nextRound { roundOverState (some Side.one) with
        p1 := { p1Start with rounds := 1 } }).p1.rounds = 0 ∧
    (nextRound { roundOverState (some Side.one) with
        p1 := { p1Start with rounds := 1 } }).matchWinner = some Side.one ∧
    (nextRound (roundOverState (some Side.two))).roundOver = false ∧
    (nextRound (roundOverState (some Side.two))).winnerRound = none ∧
    (nextRound (roundOverState (some Side.two))).timer = ROUND_TIME := by
  norm_num +decide [nextRound, roundOverState, checkChampion, createFighter,
    p1Start, p2Start, WIN_ROUNDS, ARENA_WIDTH, FLOOR_Y, ROUND_TIME]

/-- C2 counterexample: the claim says a fighter never has `attacking` and
`block` simultaneously true after a step, but a fighter already mid-attack
that holds the block key ends the step with both true. -/
theorem c2_counterexample :
    (controlPlayer blockKeys midAttackFighter CONTROLS_p1 0 16).attacking = true ∧
    (controlPlayer blockKeys midAttackFighter CONTROLS_p1 0 16).block = true := by
  norm_num [controlPlayer, blockPhase, movePhase, jumpPhase, attackPhase, integratePhase,
    flashPhase, attackDecayPhase, timersPhase, midAttackFighter, p1Start, createFighter,
    clamp, CONTROLS_p1, blockKeys, FLOOR_Y, ARENA_WIDTH, GRAVITY, FRICTION, MAX_SPEED,
    JUMP_VELOCITY, ATTACK_COOLDOWN, HEAVY_COOLDOWN, SPECIAL_COOLDOWN,
    apply_ite Fighter.attacking, apply_ite Fighter.block, apply_ite Fighter.hitflash,
    apply_ite Fighter.blockflash, apply_ite Fighter.attackTimer, apply_ite Fighter.y,
    apply_ite Fighter.vy, apply_ite Fighter.onGround]

/-- C2 amended: a fighter entering the step with `attacking = false` never
leaves it with `attacking` and `block` both true (attack initiation is
suppressed while blocking); only a fighter already mid-attack that holds
block can show both flags. -/
theorem c2_amended_no_both_flags_from_idle (k : Key → Bool) (f : Fighter)
    (c : ControlScheme) (now delta : ℚ) (h : f.attacking = false) :
    ¬((controlPlayer k f c now delta).attacking = true ∧
      (controlPlayer k f c now delta).block = true) := by
  rintro ⟨hatt, hblk⟩
  rw [controlPlayer_block] at hblk
  have hfa : (controlPlayer k f c now delta).attacking = false := by
    simp only [controlPlayer]
    apply timersPhase_attacking_of_false
    rw [integratePhase_attacking]
    rw [attackPhase_attacking_of_block _ _ _ _
      (by rw [jumpPhase_block, movePhase_block, blockPhase_block]; exact hblk)]
    rw [jumpPhase_attacking, movePhase_attacking, blockPhase_attacking]
    exact h
  rw [hfa] at hatt
  exact absurd hatt (by simp)

/-- Witness for the amended C2 at a concrete input. -/
theorem c2_amended_no_both_flags_from_idle_witness :
    p1Start.attacking = false ∧
    ¬((controlPlayer blockKeys p1Start CONTROLS_p1 0 16).attacking = true ∧
      (controlPlayer blockKeys p1Start CONTROLS_p1 0 16).block = true) :=
  ⟨rfl, c2_amended_no_both_flags_from_idle blockKeys p1Start CONTROLS_p1 0 16 rfl⟩

/-- C3: starting from hp in `[0,100]` and x in `[24, ARENA_WIDTH-24]` for
both fighters, a full tick (movement integration, hit resolution, overlap
separation) keeps both fighters' hp and x in those ranges. -/
theorem c3_tick_preserves_bounds (k : Key → Bool) (p1 p2 : Fighter)
    (now delta : ℚ)
    (h1 : 0 ≤ p1.hp ∧ p1.hp ≤ 100) (h2 : 0 ≤ p2.hp ∧ p2.hp ≤ 100)
    (hx1 : 24 ≤ p1.x ∧ p1.x ≤ ARENA_WIDTH - 24)
    (hx2 : 24 ≤ p2.x ∧ p2.x ≤ ARENA_WIDTH - 24) :
    (0 ≤ (tickPvP k p1 p2 now delta).1.hp ∧ (tickPvP k p1 p2 now delta).1.hp ≤ 100) ∧
    (0 ≤ (tickPvP k p1 p2 now delta).2.hp ∧ (tickPvP k p1 p2 now delta).2.hp ≤ 100) ∧
    (24 ≤ (tickPvP k p1 p2 now delta).1.x ∧
      (tickPvP k p1 p2 now delta).1.x ≤ ARENA_WIDTH - 24) ∧
    (24 ≤ (tickPvP k p1 p2 now delta).2.x ∧
      (tickPvP k p1 p2 now delta).2.x ≤ ARENA_WIDTH - 24) := by
  simp only [tickPvP]
  exact resolveCombat_bounds _ _
    (by rw [controlPlayer_hp]; exact h1)
    (by rw [controlPlayer_hp]; exact h2)
    (controlPlayer_x_bounds _ _ _ _ _)
    (controlPlayer_x_bounds _ _ _ _ _)

/-- Witness for C3 at the initial fighters. -/
theorem c3_tick_preserves_bounds_witness :
    ((0 ≤ p1Start.hp ∧ p1Start.hp ≤ 100) ∧ (0 ≤ p2Start.hp ∧ p2Start.hp ≤ 100) ∧
     (24 ≤ p1Start.x ∧ p1Start.x ≤ ARENA_WIDTH - 24) ∧
     (24 ≤ p2Start.x ∧ p2Start.x ≤ ARENA_WIDTH - 24)) ∧
    ((0 ≤ (tickPvP noKeys p1Start p2Start 0 16).1.hp ∧
      (tickPvP noKeys p1Start p2Start 0 16).1.hp ≤ 100) ∧
     (0 ≤ (tickPvP noKeys p1Start p2Start 0 16).2.hp ∧
      (tickPvP noKeys p1Start p2Start 0 16).2.hp ≤ 100) ∧
     (24 ≤ (tickPvP noKeys p1Start p2Start 0 16).1.x ∧
      (tickPvP noKeys p1Start p2Start 0 16).1.x ≤ ARENA_WIDTH - 24) ∧
     (24 ≤ (tickPvP noKeys p1Start p2Start 0 16).2.x ∧
      (tickPvP noKeys p1Start p2Start 0 16).2.x ≤ ARENA_WIDTH - 24)) := by
  have hp1 : 0 ≤ p1Start.hp ∧ p1Start.hp ≤ 100 := by norm_num [p1Start, createFighter]
  have hp2 : 0 ≤ p2Start.hp ∧ p2Start.hp ≤ 100 := by norm_num [p2Start, createFighter]
  have hx1 : 24 ≤ p1Start.x ∧ p1Start.x ≤ ARENA_WIDTH - 24 := by
    norm_num [p1Start, createFighter, ARENA_WIDTH]
  have hx2 : 24 ≤ p2Start.x ∧ p2Start.x ≤ ARENA_WIDTH - 24 := by
    norm_num [p2Start, createFighter, ARENA_WIDTH]
  exact ⟨⟨hp1, hp2, hx1, hx2⟩,
    c3_tick_preserves_bounds noKeys p1Start p2Start 0 16 hp1 hp2 hx1 hx2⟩

/-- C4: attack initiation happens only when not attacking, not blocking and
`canAct`; candidates are tried special, then heavy, then light, and the
first desired type whose cooldown timestamp is `≤ now` is initiated with its
fixed timer duration (light 120, heavy 180, special 240) and cooldown push
(light 350, heavy 700, special 2200); a desired type whose cooldown exceeds
`now` is never initiated. -/
theorem c4_attack_initiation (k : Key → Bool) (c : ControlScheme) (f : Fighter)
    (now : ℚ) :
    (¬(f.attacking = false ∧ f.block = false ∧ f.canAct = true) →
      attackPhase k c f now = f) ∧
    (f.attacking = false → f.block = false → f.canAct = true →
      ((k c.special = true → now ≥ f.cooldowns.special →
          attackPhase k c f now =
            { f with attacking := true, attackType := some AttackType.special,
                     attackTimer := 240,
                     cooldowns := { f.cooldowns with special := now + SPECIAL_COOLDOWN } }) ∧
       (¬(k c.special = true ∧ now ≥ f.cooldowns.special) →
        k c.heavy = true → now ≥ f.cooldowns.heavy →
          attackPhase k c f now =
            { f with attacking := true, attackType := some AttackType.heavy,
                     attackTimer := 180,
                     cooldowns := { f.cooldowns with heavy := now + HEAVY_COOLDOWN } }) ∧
       (¬(k c.special = true ∧ now ≥ f.cooldowns.special) →
        ¬(k c.heavy = true ∧ now ≥ f.cooldowns.heavy) →
        k c.light = true → now ≥ f.cooldowns.light →
          attackPhase k c f now =
            { f with attacking := true, attackType := some AttackType.light,
                     attackTimer := 120,
                     cooldowns := { f.cooldowns with light := now + ATTACK_COOLDOWN } }))) ∧
    (f.attacking = false → ∀ t : AttackType, now < f.cooldowns.get t →
      ¬((attackPhase k c f now).attacking = true ∧
        (attackPhase k c f now).attackType = some t)) := by
  refine ⟨attackPhase_of_guard_failed k c f now, ?_, ?_⟩
  · intro ha hb hc
    refine ⟨?_, ?_, ?_⟩
    · intro hs hcd
      simp only [attackPhase, if_pos (show f.attacking = false ∧ f.block = false ∧
        f.canAct = true from ⟨ha, hb, hc⟩), if_pos (show k c.special = true ∧
        now ≥ f.cooldowns.special from ⟨hs, hcd⟩)]
    · intro hns hh hcd
      simp only [attackPhase, if_pos (show f.attacking = false ∧ f.block = false ∧
        f.canAct = true from ⟨ha, hb, hc⟩), if_neg hns,
        if_pos (show k c.heavy = true ∧ now ≥ f.cooldowns.heavy from ⟨hh, hcd⟩)]
    · intro hns hnh hl hcd
      simp only [attackPhase, if_pos (show f.attacking = false ∧ f.block = false ∧
        f.canAct = true from ⟨ha, hb, hc⟩), if_neg hns, if_neg hnh,
        if_pos (show k c.light = true ∧ now ≥ f.cooldowns.light from ⟨hl, hcd⟩)]
  · intro ha t hcd h
    exact absurd (attackPhase_respects_cooldowns k c f now t ha h.1 h.2)
      (not_le.mpr hcd)

/-- Witness for C4: a fresh fighter pressing special at `now = 0` initiates
the special attack with timer 240 and cooldown 2200. -/
theorem c4_attack_initiation_witness :
    (p1Start.attacking = false ∧ p1Start.block = false ∧ p1Start.canAct = true ∧
     specialKeys CONTROLS_p1.special = true ∧ (0:ℚ) ≥ p1Start.cooldowns.special) ∧
    attackPhase specialKeys CONTROLS_p1 p1Start 0 =
      { p1Start with attacking := true, attackType := some AttackType.special,
                     attackTimer := 240,
                     cooldowns := { p1Start.cooldowns with special := 0 + SPECIAL_COOLDOWN } } := by
  have hcd : (0:ℚ) ≥ p1Start.cooldowns.special := by norm_num [p1Start, createFighter]
  exact ⟨⟨rfl, rfl, rfl, rfl, hcd⟩,
    ((c4_attack_initiation specialKeys CONTROLS_p1 p1Start 0).2.1 rfl rfl rfl).1 rfl hcd⟩

/-- C5: whenever an active attack's hitbox overlaps the defender's hurtbox,
the defender loses the base damage (light 6, heavy 12, special 18), or
`⌈base * 0.35⌉` when blocking (which never exceeds the base damage), with hp
clamped into `[0,100]`; `blockflash` (blocked) or `hitflash` (unblocked) is
set to 160; and the defender's `vx` shifts by the knockback magnitude
(light 2.2, heavy 3.2, special 4.0) signed by the attacker's facing. -/
theorem c5_hit_resolution (a d : Fighter) (t : AttackType)
    (hatt : a.attacking = true) (hty : a.attackType = some t)
    (htimer : 40 < a.attackTimer)
    (hover : rectsOverlap (getAttackHitbox a t)
      { x := d.x - d.width / 2, y := d.y - d.height,
        width := d.width, height := d.height } = true) :
    (handleHit a d).hp =
      clamp (d.hp - (if d.block then blockedDamage t else baseDamage t)) 0 100 ∧
    (d.block = true →
      (handleHit a d).blockflash = 160 ∧ (handleHit a d).hitflash = d.hitflash) ∧
    (d.block = false →
      (handleHit a d).hitflash = 160 ∧ (handleHit a d).blockflash = d.blockflash) ∧
    (handleHit a d).vx = d.vx + knockback t * (if a.facing = 1 then 1 else -1) ∧
    blockedDamage t ≤ baseDamage t := by
  by_cases hb : d.block = true
  · rw [handleHit_connect_blocked a d t hatt hty htimer hover hb]
    refine ⟨by simp [hb], fun _ => ⟨rfl, rfl⟩, fun hf => ?_, rfl,
      blockedDamage_le_baseDamage t⟩
    rw [hf] at hb
    simp at hb
  · have hb' : d.block = false := by simpa using hb
    rw [handleHit_connect_unblocked a d t hatt hty htimer hover hb']
    refine ⟨by simp [hb'], fun ht => ?_, fun _ => ⟨rfl, rfl⟩, rfl,
      blockedDamage_le_baseDamage t⟩
    rw [ht] at hb'
    simp at hb'

/-- Witness for C5: the two end-to-end scenarios of the spec: an unblocked
light hit takes a fresh defender from hp 100 to 94 with `hitflash` 160 and
`vx` shifted by +2.2; the same hit blocked leaves hp 97 with `blockflash`
set. -/
theorem c5_hit_resolution_witness :
    (c5Attacker.attacking = true ∧ c5Attacker.attackType = some AttackType.light ∧
     (40:ℚ) < c5Attacker.attackTimer ∧
     rectsOverlap (getAttackHitbox c5Attacker AttackType.light)
       { x := c5Defender.x - c5Defender.width / 2, y := c5Defender.y - c5Defender.height,
         width := c5Defender.width, height := c5Defender.height } = true) ∧
    (handleHit c5Attacker c5Defender).hp = 94 ∧
    (handleHit c5Attacker c5Defender).hitflash = 160 ∧
    (handleHit c5Attacker c5Defender).vx = c5Defender.vx + 22/10 ∧
    (handleHit c5Attacker c5BlockingDefender).hp = 97 ∧
    (handleHit c5Attacker c5BlockingDefender).blockflash = 160 := by
  have hov1 : rectsOverlap (getAttackHitbox c5Attacker AttackType.light)
      { x := c5Defender.x - c5Defender.width / 2, y := c5Defender.y - c5Defender.height,
        width := c5Defender.width, height := c5Defender.height } = true := by
    norm_num [rectsOverlap, getAttackHitbox, c5Attacker, c5Defender, p1Start, p2Start,
      createFighter, FLOOR_Y, ARENA_WIDTH]
  have hov2 : rectsOverlap (getAttackHitbox c5Attacker AttackType.light)
      { x := c5BlockingDefender.x - c5BlockingDefender.width / 2,
        y := c5BlockingDefender.y - c5BlockingDefender.height,
        width := c5BlockingDefender.width, height := c5BlockingDefender.height } = true := by
    norm_num [rectsOverlap, getAttackHitbox, c5Attacker, c5BlockingDefender, c5Defender,
      p1Start, p2Start, createFighter, FLOOR_Y, ARENA_WIDTH]
  have ht : (40:ℚ) < c5Attacker.attackTimer := by
    norm_num [c5Attacker, p1Start, createFighter]
  have h1 := c5_hit_resolution c5Attacker c5Defender AttackType.light rfl rfl ht hov1
  have h2 := c5_hit_resolution c5Attacker c5BlockingDefender AttackType.light rfl rfl ht hov2
  refine ⟨⟨rfl, rfl, ht, hov1⟩, ?_, ?_, ?_, ?_, ?_⟩
  · rw [h1.1]
    norm_num [c5Defender, p2Start, createFighter, clamp, baseDamage]
  · exact (h1.2.2.1 rfl).1
  · rw [h1.2.2.2.1]
    norm_num [c5Attacker, p1Start, createFighter, knockback]
  · rw [h2.1]
    rw [show c5BlockingDefender.block = true from rfl]
    norm_num [c5BlockingDefender, c5Defender, p2Start, createFighter, clamp,
      blockedDamage_light]
  · exact (h2.2.1 rfl).1

/-- C6 counterexample: the claim says the AI's synthetic overlay is discarded
after the tick, leaving the shared pressed-key state equal to what human
input alone produced.  In fact `controlAI` merges the overlay into the
shared key map and nothing restores it: with no human key pressed, after one
PvAI tick the shared map reports Player 2's right-arrow key as pressed (the
AI's retreat intent at distance 20 < 72). -/
theorem c6_counterexample :
    (tickPvAI noKeys c6P1 c6P2 0 16 DIFFICULTY_Normal c6Rands).2 Key.arrowRight = true ∧
    noKeys Key.arrowRight = false := by
  constructor
  · norm_num +decide [tickPvAI, controlAI, c6P1, c6P2, c6Rands, DIFFICULTY_Normal, noKeys,
      CONTROLS_p2, p1Start, p2Start, createFighter, ARENA_WIDTH, FLOOR_Y]
  · rfl

/-- C6 amended: the AI's synthetic overlay persists in the shared key state
after the tick, but only at Player 2's seven control keys — every other key
keeps its human-produced value — and the AI's whole effect on the fighters
is exactly that of the generic per-fighter step on the pre-overlay key map
(the overlay does not even feed this tick's own simulation). -/
theorem c6_amended_overlay_persists (k : Key → Bool) (p1 p2 : Fighter)
    (now delta : ℚ) (cfg : Difficulty) (r : AIRands) (key : Key)
    (h1 : key ≠ CONTROLS_p2.left) (h2 : key ≠ CONTROLS_p2.right)
    (h3 : key ≠ CONTROLS_p2.up) (h4 : key ≠ CONTROLS_p2.down)
    (h5 : key ≠ CONTROLS_p2.light) (h6 : key ≠ CONTROLS_p2.heavy)
    (h7 : key ≠ CONTROLS_p2.special) :
    (tickPvAI k p1 p2 now delta cfg r).2 key = k key ∧
    (tickPvAI k p1 p2 now delta cfg r).1 =
      resolveCombat (controlPlayer k p1 CONTROLS_p1 now delta)
        (controlPlayer k p2 CONTROLS_p2 now delta) := by
  constructor
  · simp only [tickPvAI, controlAI]
    simp [h1, h2, h3, h4, h5, h6, h7]
  · rfl

/-- Witness for the amended C6: Player 1's left key survives the AI tick
untouched. -/
theorem c6_amended_overlay_persists_witness :
    Key.keyA ≠ CONTROLS_p2.left ∧
    (tickPvAI noKeys c6P1 c6P2 0 16 DIFFICULTY_Normal c6Rands).2 Key.keyA =
      noKeys Key.keyA :=
  ⟨by decide, (c6_amended_overlay_persists noKeys c6P1 c6P2 0 16 DIFFICULTY_Normal
    c6Rands Key.keyA (by decide) (by decide) (by decide) (by decide) (by decide)
    (by decide) (by decide)).1⟩

/-- C7: a step preserves the invariant `attackTimer > 0 ↔ attacking`, and
unconditionally a fighter leaving a step attacking has a strictly positive
attack timer (never `attacking = true` with `attackTimer ≤ 0`). -/
theorem c7_attacking_iff_positive_timer (k : Key → Bool) (f : Fighter)
    (c : ControlScheme) (now delta : ℚ) :
    ((f.attackTimer > 0 ↔ f.attacking = true) →
      ((controlPlayer k f c now delta).attackTimer > 0 ↔
        (controlPlayer k f c now delta).attacking = true)) ∧
    ((controlPlayer k f c now delta).attacking = true →
      (controlPlayer k f c now delta).attackTimer > 0) := by
  constructor
  · intro h
    simp only [controlPlayer]
    apply timersPhase_inv
    rw [integratePhase_attacking, integratePhase_attackTimer]
    rcases attackPhase_attack_state k c (jumpPhase k c (movePhase k c (blockPhase k c f)))
        now with ⟨e1, e2⟩ | ⟨e1, e2⟩
    · rw [e1, e2, jumpPhase_attacking, jumpPhase_attackTimer, movePhase_attacking,
        movePhase_attackTimer, blockPhase_attacking, blockPhase_attackTimer]
      exact h
    · simp [e1, e2]
  · intro h
    exact timersPhase_safety _ _ h

/-- Witness for C7 at the initial fighter (timer 0, not attacking). -/
theorem c7_attacking_iff_positive_timer_witness :
    (p1Start.attackTimer > 0 ↔ p1Start.attacking = true) ∧
    ((controlPlayer noKeys p1Start CONTROLS_p1 0 16).attackTimer > 0 ↔
      (controlPlayer noKeys p1Start CONTROLS_p1 0 16).attacking = true) := by
  have h : p1Start.attackTimer > 0 ↔ p1Start.attacking = true := by
    norm_num [p1Start, createFighter]
  exact ⟨h, (c7_attacking_iff_positive_timer noKeys p1Start CONTROLS_p1 0 16).1 h⟩

/-- C8: when the round timer reaches 0 on an active tick, the round ends
with `timer = 0` and the winner is the higher-hp side, or no winner on an
exact hp tie. -/
theorem c8_time_up_decides_by_hp (s : GameState) (delta : ℚ)
    (hpau : s.paused = false) (hro : s.roundOver = false)
    (hmw : s.matchWinner = none) (hd : delta > 0)
    (ht : s.timer - delta / 1000 ≤ 0) :
    (countdown s delta).roundOver = true ∧ (countdown s delta).timer = 0 ∧
    (countdown s delta).winnerRound =
      (if s.p1.hp = s.p2.hp then none
       else if s.p1.hp > s.p2.hp then some Side.one else some Side.two) := by
  simp [countdown, hpau, hro, hmw, hd, ht]

/-- Witness for C8: both fighters at full hp when the timer expires gives a
draw (no winner). -/
theorem c8_time_up_decides_by_hp_witness :
    (idleState.paused = false ∧ idleState.roundOver = false ∧
     idleState.matchWinner = none ∧ (16:ℚ) > 0 ∧
     idleState.timer - 16 / 1000 ≤ 0) ∧
    ((countdown idleState 16).roundOver = true ∧ (countdown idleState 16).timer = 0 ∧
     (countdown idleState 16).winnerRound =
       (if idleState.p1.hp = idleState.p2.hp then none
        else if idleState.p1.hp > idleState.p2.hp then some Side.one
        else some Side.two)) := by
  have ht : idleState.timer - 16 / 1000 ≤ 0 := by norm_num [idleState]
  have hd : (16:ℚ) > 0 := by norm_num
  exact ⟨⟨rfl, rfl, rfl, hd, ht⟩,
    c8_time_up_decides_by_hp idleState 16 rfl rfl rfl hd ht⟩

/-- C9: hit resolution leaves the defender untouched unless the attacker is
attacking with more than 40 ms left on its attack timer: a non-attacking
fighter, or an attack in its recovery tail (`attackTimer ≤ 40`), deals no
damage and causes no flash or knockback. -/
theorem c9_inactive_attack_no_effect (a d : Fighter)
    (h : a.attacking = false ∨ a.attackTimer ≤ 40) :
    handleHit a d = d := by
  rcases h with h | h
  · simp [handleHit, h]
  · simp only [handleHit]
    repeat' split
    all_goals first
      | rfl
      | exact absurd h (by assumption)

/-- Witness for C9: a non-attacking fighter leaves the other unchanged. -/
theorem c9_inactive_attack_no_effect_witness :
    p1Start.attacking = false ∧ handleHit p1Start p2Start = p2Start :=
  ⟨rfl, c9_inactive_attack_no_effect p1Start p2Start (Or.inl rfl)⟩

/-- C10: the KO check examines Player 1's hp first: hp₁ ≤ 0 awards the round
to Player 2, and Player 1 wins only when hp₂ ≤ 0 with hp₁ > 0; a
simultaneous double KO therefore deterministically awards the round to
Player 2. -/
theorem c10_ko_favors_player_two (np1 np2 : Fighter) (s : GameState) :
    (np1.hp ≤ 0 → (koCheck np1 np2 s).winnerRound = some Side.two ∧
      (koCheck np1 np2 s).roundOver = true) ∧
    (np2.hp ≤ 0 → 0 < np1.hp → (koCheck np1 np2 s).winnerRound = some Side.one ∧
      (koCheck np1 np2 s).roundOver = true) ∧
    (np1.hp ≤ 0 → np2.hp ≤ 0 → (koCheck np1 np2 s).winnerRound = some Side.two) := by
  refine ⟨fun h => ?_, fun h2 h1 => ?_, fun h1 _ => ?_⟩
  · simp [koCheck, h]
  · have hn : ¬ np1.hp ≤ 0 := not_le.mpr h1
    simp [koCheck, h2, hn]
  · simp [koCheck, h1]

/-- Witness for C10: a double KO goes to Player 2. -/
theorem c10_ko_favors_player_two_witness :
    koFighter.hp ≤ 0 ∧
    (koCheck koFighter koFighter idleState).winnerRound = some Side.two := by
  have h : koFighter.hp ≤ 0 := by norm_num [koFighter, p1Start, createFighter]
  exact ⟨h, (c10_ko_favors_player_two koFighter koFighter idleState).2.2 h h⟩

end FightingArena
